import Mathlib

/-!
Verification of the ProductHunt scraper extraction pipeline
(src/src/scraper.py, class ProductHuntScraper).

Shallow embedding: the BeautifulSoup library boundary is modelled
abstractly (a container exposes the outcome of a CSS select_one query,
which may throw, and the outcome of the anchor lookup used for the
product URL); everything downstream of that boundary is translated
directly from the Python source.  Python truthiness of strings is
modelled as the non-emptiness test, str.startswith as a list-prefix
test on the character data, and random.randint lo hi as a value drawn
from an abstract stream, reduced into the inclusive range [lo, hi].
-/

/-- A DOM element as the scraper observes it: the result of
get_text(strip=True) and the href attribute (absent when the element has
none). -/
structure Element where
  textStrip : String
  href : Option String
deriving Repr, DecidableEq

/-- A candidate product container.  select_one may throw (modelled by
Except.error), may find nothing, or may find an element.
postsAnchor models container.find for an anchor whose href contains
a post-detail path (scraper.py line 208). -/
structure Container where
  selectOne : String → Except Unit (Option Element)
  postsAnchor : Option Element

/-- A Product Record: all eight keys the extractor writes
(scraper.py lines 167-236). -/
structure Product where
  name : String
  tagline : String
  votes : Nat
  comments : Nat
  url : String
  maker : String
  category : String
  launched_at : String
deriving Repr, DecidableEq

/-- Python str.startswith on character data. -/
def pyStartswith (s pre : String) : Bool :=
  List.isPrefixOf pre.data s.data

/-- Python `text or default` for an optional string: a missing or empty
string falls back to the default. -/
def pyOr (o : Option String) (d : String) : String :=
  match o with
  | some s => if s = "" then d else s
  | none => d

/-- A maximal first run of decimal digits in a character list, as
re.findall(r"\d+", text) produces for its first match. -/
def firstDigitRun : List Char → Option (List Char)
  | [] => none
  | c :: rest =>
    if c.isDigit then some (c :: rest.takeWhile Char.isDigit)
    else firstDigitRun rest

/-- Decimal value of a digit run (Python int of the matched token). -/
def digitsToNat (l : List Char) : Nat :=
  l.foldl (fun acc c => acc * 10 + (c.toNat - Char.toNat '0')) 0

/-- _extract_number (scraper.py lines 257-271): empty text yields 0;
otherwise commas are removed, the first run of decimal digits is parsed,
and text with no digits yields 0. -/
def extract_number (text : String) : Nat :=
  if text = "" then 0
  else
    match firstDigitRun (text.data.filter (fun c => c ≠ ',')) with
    | some run => digitsToNat run
    | none => 0

/-- _find_text_by_selectors (scraper.py lines 238-255): first selector
whose element exists with non-empty stripped text wins; a selector that
throws is skipped. -/
def find_text_by_selectors (c : Container) : List String → Option String
  | [] => none
  | sel :: rest =>
    match c.selectOne sel with
    | .error _ => find_text_by_selectors c rest
    | .ok none => find_text_by_selectors c rest
    | .ok (some el) =>
      if el.textStrip ≠ "" then some el.textStrip
      else find_text_by_selectors c rest

/-- Outcome of one selector against one container: the text it would
contribute, when its element exists and has non-empty stripped text. -/
def selMatch (c : Container) (sel : String) : Option String :=
  match c.selectOne sel with
  | .error _ => none
  | .ok none => none
  | .ok (some el) => if el.textStrip ≠ "" then some el.textStrip else none

def nameSelectors : List String :=
  ["h3", "h2", "[data-test*=\"name\"]", ".name", ".title",
   "a[href*=\"/posts/\"]", "[class*=\"name\"]", "[class*=\"title\"]"]

def taglineSelectors : List String :=
  [".tagline", ".description", "[data-test*=\"tagline\"]",
   "p", ".subtitle", "[class*=\"tagline\"]", "[class*=\"description\"]"]

def votesSelectors : List String :=
  ["[data-test*=\"vote\"]", ".votes", ".vote-count", ".upvote",
   "[class*=\"vote\"]", "[class*=\"count\"]"]

def commentsSelectors : List String :=
  ["[data-test*=\"comment\"]", ".comments", ".comment-count",
   "[class*=\"comment\"]", "[href*=\"comments\"]"]

def makerSelectors : List String :=
  ["[data-test*=\"maker\"]", ".maker", ".author", ".creator",
   "[class*=\"maker\"]", "[class*=\"author\"]"]

def categorySelectors : List String :=
  [".category", ".tag", "[data-test*=\"category\"]",
   "[class*=\"category\"]", "[class*=\"tag\"]"]

/-- The synthesized placeholder URL for index i
(scraper.py line 213). -/
def placeholderUrl (i : Nat) : String :=
  "https://www.producthunt.com/posts/product-" ++ toString (i + 1)

/-- URL extraction (scraper.py lines 207-213): first post-detail anchor
with a truthy href, made absolute if relative; otherwise the synthesized
placeholder. -/
def extract_url (c : Container) (i : Nat) : String :=
  match c.postsAnchor with
  | some el =>
    match el.href with
    | some h =>
      if h ≠ "" then
        (if pyStartswith h "http" then h else "https://www.producthunt.com" ++ h)
      else placeholderUrl i
    | none => placeholderUrl i
  | none => placeholderUrl i

/-- Python `extract_number(text) if text else 0` on an optional
votes/comments text (scraper.py lines 194, 204). -/
def optNum (o : Option String) : Nat :=
  match o with
  | some t => if t = "" then 0 else extract_number t
  | none => 0

/-- _extract_product_data (scraper.py lines 157-236): builds the full
record, every field defaulted when its selector chain finds nothing.
now is the datetime.now().isoformat() timestamp. -/
def extract_product_data (now : String) (c : Container) (i : Nat) : Product :=
  { name := pyOr (find_text_by_selectors c nameSelectors) ("Product " ++ toString (i + 1))
    tagline := pyOr (find_text_by_selectors c taglineSelectors) "No description available"
    votes := optNum (find_text_by_selectors c votesSelectors)
    comments := optNum (find_text_by_selectors c commentsSelectors)
    url := extract_url c i
    maker := pyOr (find_text_by_selectors c makerSelectors) "Unknown Maker"
    category := pyOr (find_text_by_selectors c categorySelectors) "General"
    launched_at := now }

/-- The validity filter applied by the orchestrator loop
(scraper.py line 139): the record's name is truthy and does not start
with the literal "Product " placeholder prefix. -/
def is_meaningful (p : Product) : Bool :=
  p.name ≠ "" && !(pyStartswith p.name "Product ")

/-- Outcome of the parse stage's container location region: either an
exception escapes (caught by the outer try of _parse_products), or the
primary find_all result and the fallback find_all result are available
(scraper.py lines 124-132). -/
inductive LocateResult where
  | throws : LocateResult
  | found : List Container → List Container → LocateResult

/-- The container list the loop iterates (before the cap): the fallback
list is consulted only when the primary one is empty
(scraper.py lines 128-132). -/
def locatedContainers : LocateResult → List Container
  | .throws => []
  | .found primary fb => if primary.isEmpty then fb else primary

/-- One iteration of the per-container loop of _parse_products: extract
the record at this enumerated index, keep it only when the validity
filter passes. -/
def loopBody (now : String) (ic : Nat × Container) : Option Product :=
  let p := extract_product_data now ic.2 ic.1
  if is_meaningful p then some p else none

/-- The per-container loop of _parse_products (scraper.py lines
136-144): enumerate the first 20 containers, extract each, keep the
record only when the validity filter passes. -/
def extractSurvivors (now : String) (cs : List Container) : List Product :=
  (cs.take 20).enum.filterMap (loopBody now)

/-- One catalog entry of the mock generator: fixed identity fields and
the inclusive random ranges for votes and comments. -/
structure MockEntry where
  name : String
  tagline : String
  vlo : Nat
  vhi : Nat
  clo : Nat
  chi : Nat
  maker : String
  category : String
deriving Repr, DecidableEq

/-- The fixed 10-entry catalog of _get_mock_products
(scraper.py lines 285-366), ranges copied from the randint calls. -/
def mockCatalog : List MockEntry :=
  [{ name := "AI Productivity Suite"
     tagline := "Boost your workflow with intelligent automation and smart insights"
     vlo := 50, vhi := 300, clo := 5, chi := 45
     maker := "ProductivityAI", category := "Productivity" },
   { name := "CodeReview AI"
     tagline := "Automated code reviews with AI-powered suggestions and security checks"
     vlo := 80, vhi := 250, clo := 10, chi := 35
     maker := "DevTools Pro", category := "Developer Tools" },
   { name := "StartupMetrics Dashboard"
     tagline := "Track KPIs, revenue, and growth metrics in one beautiful dashboard"
     vlo := 120, vhi := 280, clo := 15, chi := 40
     maker := "MetricsLab", category := "Analytics" },
   { name := "AI Content Generator"
     tagline := "Create engaging content for social media, blogs, and marketing campaigns"
     vlo := 90, vhi := 220, clo := 8, chi := 30
     maker := "ContentAI", category := "Marketing" },
   { name := "Remote Team Sync"
     tagline := "Keep distributed teams aligned with smart scheduling and collaboration tools"
     vlo := 60, vhi := 180, clo := 12, chi := 25
     maker := "RemoteFirst", category := "Collaboration" },
   { name := "Customer Feedback AI"
     tagline := "Analyze customer sentiment and extract actionable insights from reviews"
     vlo := 70, vhi := 200, clo := 7, chi := 28
     maker := "FeedbackLabs", category := "Customer Success" },
   { name := "Expense Tracker Pro"
     tagline := "Smart expense tracking with receipt scanning and budget forecasting"
     vlo := 85, vhi := 160, clo := 9, chi := 22
     maker := "FinanceTools", category := "Finance" },
   { name := "Design System Builder"
     tagline := "Create and maintain consistent design systems across your product team"
     vlo := 95, vhi := 240, clo := 11, chi := 33
     maker := "DesignOps", category := "Design Tools" },
   { name := "API Security Scanner"
     tagline := "Automated vulnerability scanning and security testing for REST APIs"
     vlo := 110, vhi := 190, clo := 13, chi := 27
     maker := "SecureAPI", category := "Security" },
   { name := "Social Media Scheduler"
     tagline := "Plan, schedule, and analyze your social media presence across all platforms"
     vlo := 75, vhi := 210, clo := 6, chi := 31
     maker := "SocialGrowth", category := "Social Media" }]

/-- random.randint lo hi modelled from an abstract draw v: the result
always lies in the inclusive range [lo, hi] when lo ≤ hi. -/
def randint (v lo hi : Nat) : Nat :=
  lo + v % (hi + 1 - lo)

/-- The mock URL derivation (scraper.py line 376): lowercased name with
spaces turned into hyphens. -/
def mockUrl (name : String) : String :=
  "https://producthunt.com/posts/" ++ (name.toLower.replace " " "-")

/-- _get_mock_products (scraper.py lines 273-386): the fixed catalog
converted to full records, the k-th randint call consuming draw s k
(two calls per entry, votes then comments). -/
def get_mock_products (now : String) (s : Nat → Nat) : List Product :=
  mockCatalog.enum.map (fun ie =>
    { name := ie.2.name
      tagline := ie.2.tagline
      votes := randint (s (2 * ie.1)) ie.2.vlo ie.2.vhi
      comments := randint (s (2 * ie.1 + 1)) ie.2.clo ie.2.chi
      url := mockUrl ie.2.name
      maker := ie.2.maker
      category := ie.2.category
      launched_at := now })

/-- _parse_products (scraper.py lines 110-155), instrumented with a
Bool recording whether _get_mock_products was invoked: an exception in
the parse stage, or an empty survivor list, yields the mock catalog. -/
def parse_productsM (now : String) (s : Nat → Nat) (lr : LocateResult) :
    List Product × Bool :=
  match lr with
  | .throws => (get_mock_products now s, true)
  | .found primary fb =>
    let ps := extractSurvivors now (if primary.isEmpty then fb else primary)
    if ps.isEmpty then (get_mock_products now s, true) else (ps, false)

/-- Outcome of one network attempt: a requests.RequestException, or a
successfully fetched and soup-parsed page (represented by what the
container location stage will observe on it). -/
inductive AttemptOutcome where
  | fail : AttemptOutcome
  | ok : LocateResult → AttemptOutcome

inductive SleepKind where
  | backoff : SleepKind
  | rateLimit : SleepKind
deriving Repr, DecidableEq

/-- Observable trace of the retry loop of _fetch_products_from_url:
how many attempts ran, every time.sleep call in order with its duration,
and the page obtained (none when the final attempt re-raised, or when
the loop body never ran). -/
structure FetchTrace where
  attemptsMade : Nat
  sleeps : List (SleepKind × Nat)
  result : Option LocateResult

/-- The retry loop body from iteration a on, with fuel many iterations
remaining (scraper.py lines 85-108).  On success the finally clause
still sleeps the flat rate-limit delay unless this was the final
attempt; on failure with attempts remaining the except clause sleeps
the exponential backoff d * 2^a and then the finally clause sleeps the
flat d; on the final failing attempt the exception is re-raised. -/
def fetchAux (o : Nat → AttemptOutcome) (m d : Nat) : Nat → Nat → FetchTrace
  | _, 0 => { attemptsMade := 0, sleeps := [], result := none }
  | a, fuel + 1 =>
    match o a with
    | .ok lr =>
      { attemptsMade := 1
        sleeps := if a + 1 < m then [(SleepKind.rateLimit, d)] else []
        result := some lr }
    | .fail =>
      if a + 1 < m then
        let rest := fetchAux o m d (a + 1) fuel
        { attemptsMade := rest.attemptsMade + 1
          sleeps := (SleepKind.backoff, d * 2 ^ a) :: (SleepKind.rateLimit, d) :: rest.sleeps
          result := rest.result }
      else
        { attemptsMade := 1, sleeps := [], result := none }

/-- _fetch_products_from_url (scraper.py lines 76-108): the loop runs
attempts 0 .. m-1. -/
def fetch_products_from_url (o : Nat → AttemptOutcome) (m d : Nat) : FetchTrace :=
  fetchAux o m d 0 m

/-- The backoff sleeps of a trace, in order. -/
def backoffSleeps (t : FetchTrace) : List Nat :=
  (t.sleeps.filter (fun sk => sk.1 = SleepKind.backoff)).map (fun sk => sk.2)

/-- scrape_daily_products (scraper.py lines 45-74), instrumented like
parse_productsM: a fetch failure that exhausts all retries is caught and
downgraded to the empty list, without consulting the mock generator. -/
def scrape_daily_productsM (o : Nat → AttemptOutcome) (m d : Nat)
    (now : String) (s : Nat → Nat) : List Product × Bool :=
  match (fetch_products_from_url o m d).result with
  | none => ([], false)
  | some lr => parse_productsM now s lr

/-- The attempt-outcome stream in which every attempt fails. -/
def allFail : Nat → AttemptOutcome := fun _ => AttemptOutcome.fail

/-- A default record for positional lookups in statements. -/
def defaultProduct : Product :=
  { name := "", tagline := "", votes := 0, comments := 0, url := ""
    maker := "", category := "", launched_at := "" }

/-- A default catalog entry for positional lookups in statements. -/
def defaultEntry : MockEntry :=
  { name := "", tagline := "", vlo := 0, vhi := 0, clo := 0, chi := 0
    maker := "", category := "" }

/-- Unfolding of the field locator over a cons chain, phrased through
the per-selector outcome. -/
theorem find_text_cons (c : Container) (sel : String) (rest : List String) :
    find_text_by_selectors c (sel :: rest) =
      match selMatch c sel with
      | some t => some t
      | none => find_text_by_selectors c rest := by
  cases h : c.selectOne sel with
  | error e => simp [find_text_by_selectors, selMatch, h]
  | ok oe =>
    cases oe with
    | none => simp [find_text_by_selectors, selMatch, h]
    | some el =>
      by_cases he : el.textStrip = ""
      · simp [find_text_by_selectors, selMatch, h, he]
      · simp [find_text_by_selectors, selMatch, h, he]

/-- A selector only ever contributes non-empty stripped text. -/
theorem selMatch_ne_empty (c : Container) (sel : String) (u : String)
    (h : selMatch c sel = some u) : u ≠ "" := by
  cases hs : c.selectOne sel with
  | error e => simp [selMatch, hs] at h
  | ok oe =>
    cases oe with
    | none => simp [selMatch, hs] at h
    | some el =>
      by_cases he : el.textStrip = ""
      · simp [selMatch, hs, he] at h
      · simp [selMatch, hs, he] at h
        exact h ▸ he

/-- The field locator only ever returns non-empty stripped text. -/
theorem find_text_ne_empty (c : Container) (chain : List String) (t : String)
    (h : find_text_by_selectors c chain = some t) : t ≠ "" := by
  induction chain with
  | nil => simp [find_text_by_selectors] at h
  | cons sel rest ih =>
    rw [find_text_cons] at h
    cases hs : selMatch c sel with
    | none => rw [hs] at h; exact ih h
    | some u =>
      rw [hs] at h
      cases h
      exact selMatch_ne_empty c sel _ hs

/-- A character list with no decimal digit has no digit run. -/
theorem firstDigitRun_eq_none (l : List Char) (h : ∀ c ∈ l, c.isDigit = false) :
    firstDigitRun l = none := by
  induction l with
  | nil => rfl
  | cons c rest ih =>
    simp only [firstDigitRun, h c (List.mem_cons_self c rest)]
    simp only [Bool.false_eq_true, if_false]
    exact ih (fun d hd => h d (List.mem_cons_of_mem c hd))

/-- Python `o or d` agrees with Option.getD when the option never holds
the empty string. -/
theorem pyOr_getD (o : Option String) (d : String)
    (h : ∀ t, o = some t → t ≠ "") : pyOr o d = o.getD d := by
  cases o with
  | none => rfl
  | some t => simp [pyOr, h t rfl]

/-- The conditional numeric extraction agrees with mapping the number
extractor when the option never holds the empty string. -/
theorem optNum_map (o : Option String)
    (h : ∀ t, o = some t → t ≠ "") :
    optNum o = (o.map extract_number).getD 0 := by
  cases o with
  | none => rfl
  | some t => simp [optNum, h t rfl]

/-- The survivor list of the capped loop never exceeds 20 records. -/
theorem extractSurvivors_length_le (now : String) (cs : List Container) :
    (extractSurvivors now cs).length ≤ 20 := by
  calc (extractSurvivors now cs).length
      ≤ (cs.take 20).enum.length := List.length_filterMap_le _ _
    _ = (cs.take 20).length := List.enum_length
    _ ≤ 20 := by
        rw [List.length_take]
        exact Nat.min_le_left _ _

/-- C8: the Number Extractor strips thousands-separators and parses the
first run of decimal digits: any text with no decimal digit yields 0,
"1,234 votes" yields 1234, and the empty string yields 0. -/
theorem C8_extract_number_spec :
    (∀ text : String, (∀ ch ∈ text.data, ch.isDigit = false) →
      extract_number text = 0) ∧
    extract_number "1,234 votes" = 1234 ∧
    extract_number "" = 0 := by
  refine ⟨?_, by decide, rfl⟩
  intro text h
  have hrun : firstDigitRun (text.data.filter (fun c => c ≠ ',')) = none := by
    apply firstDigitRun_eq_none
    intro ch hch
    exact h ch (List.mem_of_mem_filter hch)
  unfold extract_number
  rw [hrun]
  split <;> rfl

/-- C8 witness: "no digits" instantiated at the concrete text "abc". -/
theorem C8_witness :
    (∀ ch ∈ ("abc" : String).data, ch.isDigit = false) ∧
    extract_number "abc" = 0 :=
  ⟨by decide, C8_extract_number_spec.1 "abc" (by decide)⟩

/-- A container whose name selector chain resolves to the genuine
product name "Product Launcher 3" and whose other chains find
nothing. -/
def launcherContainer : Container :=
  { selectOne := fun sel =>
      if sel = "h3" then
        Except.ok (some { textStrip := "Product Launcher 3", href := none })
      else Except.ok none
    postsAnchor := none }

/-- C1 counterexample: extraction on launcherContainer yields a record
named exactly "Product Launcher 3", yet the validity filter rejects it
and the orchestrator loop keeps nothing — the claim says this record is
retained. -/
theorem C1_counterexample :
    (extract_product_data "t" launcherContainer 0).name = "Product Launcher 3" ∧
    is_meaningful (extract_product_data "t" launcherContainer 0) = false ∧
    extractSurvivors "t" [launcherContainer] = [] := by
  refine ⟨by decide, by decide, by decide⟩

/-- C1 (amended): the validity filter retains exactly the records whose
name is non-empty and does not start with the literal prefix
"Product " - so a record named "Product 3" is excluded, a record named
"Product Launcher 3" is likewise excluded (it also starts with
"Product "), and a record with an ordinary name is retained. -/
theorem C1_amended :
    (∀ (now : String) (cs : List Container) (p : Product),
      p ∈ extractSurvivors now cs →
      p.name ≠ "" ∧ pyStartswith p.name "Product " = false) ∧
    is_meaningful { defaultProduct with name := "Product 3" } = false ∧
    is_meaningful { defaultProduct with name := "Product Launcher 3" } = false ∧
    is_meaningful { defaultProduct with name := "Notion Calendar" } = true := by
  refine ⟨?_, by decide, by decide, by decide⟩
  intro now cs p hp
  rw [extractSurvivors, List.mem_filterMap] at hp
  obtain ⟨ic, _, hic⟩ := hp
  unfold loopBody at hic
  by_cases hm : is_meaningful (extract_product_data now ic.2 ic.1) = true
  · simp only [hm, if_true] at hic
    cases hic
    unfold is_meaningful at hm
    rw [Bool.and_eq_true] at hm
    refine ⟨?_, ?_⟩
    · exact of_decide_eq_true hm.1
    · rw [Bool.not_eq_true'] at hm
      exact hm.2
  · simp only [Bool.not_eq_true] at hm
    simp only [hm, Bool.false_eq_true, if_false] at hic
    cases hic

/-- A container whose name selector chain resolves to the ordinary
product name "Notion Calendar". -/
def notionContainer : Container :=
  { selectOne := fun sel =>
      if sel = "h3" then
        Except.ok (some { textStrip := "Notion Calendar", href := none })
      else Except.ok none
    postsAnchor := none }

/-- C1 amended-theorem witness: filter soundness instantiated on the
concrete record surviving extraction from notionContainer. -/
theorem C1_amended_witness :
    (extract_product_data "t" notionContainer 0).name ≠ "" ∧
    pyStartswith (extract_product_data "t" notionContainer 0).name
      "Product " = false :=
  C1_amended.1 "t" [notionContainer] _ (by decide)

/-- C10: the validity filter inspects only the name field — records
agreeing on name are filtered identically, and a record whose name
passes the check is retained even when every other field holds its
documented default, including the synthesized placeholder URL. -/
theorem C10_filter_only_name :
    (∀ p q : Product, p.name = q.name → is_meaningful p = is_meaningful q) ∧
    (∀ (name la : String) (i : Nat), name ≠ "" →
      pyStartswith name "Product " = false →
      is_meaningful { name := name, tagline := "No description available",
                      votes := 0, comments := 0, url := placeholderUrl i,
                      maker := "Unknown Maker", category := "General",
                      launched_at := la } = true) := by
  constructor
  · intro p q hpq
    unfold is_meaningful
    rw [hpq]
  · intro name la i h1 h2
    unfold is_meaningful
    simp [h1, h2]

/-- C10 witness: a record named "Slack" with every other field at its
default (placeholder URL included) passes the filter. -/
theorem C10_witness :
    ("Slack" : String) ≠ "" ∧
    pyStartswith "Slack" "Product " = false ∧
    is_meaningful { name := "Slack", tagline := "No description available",
                    votes := 0, comments := 0, url := placeholderUrl 2,
                    maker := "Unknown Maker", category := "General",
                    launched_at := "t" } = true :=
  ⟨by decide, by decide,
    C10_filter_only_name.2 "Slack" "t" 2 (by decide) (by decide)⟩

/-- C7: the Field Locator returns the trimmed text of the first
selector in the chain whose element exists with non-empty trimmed text,
never a later one; a selector that throws is a non-match; the empty
chain always yields absent. -/
theorem C7_field_locator_first_match :
    (∀ c : Container, find_text_by_selectors c [] = none) ∧
    (∀ (c : Container) (chain : List String) (i : Nat) (t : String),
      i < chain.length →
      (∀ j, j < i → selMatch c (chain.getD j "") = none) →
      selMatch c (chain.getD i "") = some t →
      find_text_by_selectors c chain = some t) := by
  constructor
  · intro c
    rfl
  · intro c chain
    induction chain with
    | nil =>
      intro i t hi
      exact absurd hi (by simp)
    | cons sel rest ih =>
      intro i t hi hfirst hmatch
      cases i with
      | zero =>
        rw [List.getD_cons_zero] at hmatch
        rw [find_text_cons, hmatch]
      | succ n =>
        have hsel : selMatch c sel = none := by
          have := hfirst 0 (Nat.succ_pos n)
          rwa [List.getD_cons_zero] at this
        rw [find_text_cons, hsel]
        apply ih n t
        · simpa using hi
        · intro j hj
          have := hfirst (j + 1) (Nat.succ_lt_succ hj)
          rwa [List.getD_cons_succ] at this
        · rwa [List.getD_cons_succ] at hmatch

/-- A container on which the first selector of a test chain throws, the
second matches text, and the third would also match. -/
def chainContainer : Container :=
  { selectOne := fun sel =>
      if sel = "h3" then Except.error ()
      else if sel = "h2" then
        Except.ok (some { textStrip := "First Hit", href := none })
      else if sel = "p" then
        Except.ok (some { textStrip := "Later Hit", href := none })
      else Except.ok none
    postsAnchor := none }

/-- C7 witness: on chainContainer with the chain [h3, h2, p], the h3
throw is skipped and the h2 text is returned, not the p text. -/
theorem C7_witness :
    find_text_by_selectors chainContainer ["h3", "h2", "p"] = some "First Hit" :=
  C7_field_locator_first_match.2 chainContainer ["h3", "h2", "p"] 1 "First Hit"
    (by decide)
    (by
      intro j hj
      interval_cases j
      decide)
    (by decide)

/-- C6: for every container and index the Product Extractor is total and
returns a record in which each documented field holds either the text
its selector chain located or its documented default; the URL is the
anchor-derived absolute URL or the synthesized placeholder; launched_at
is always stamped. -/
theorem C6_extractor_total_fields (now : String) (c : Container) (i : Nat) :
    (extract_product_data now c i).name =
      (find_text_by_selectors c nameSelectors).getD
        ("Product " ++ toString (i + 1)) ∧
    (extract_product_data now c i).tagline =
      (find_text_by_selectors c taglineSelectors).getD
        "No description available" ∧
    (extract_product_data now c i).votes =
      ((find_text_by_selectors c votesSelectors).map extract_number).getD 0 ∧
    (extract_product_data now c i).comments =
      ((find_text_by_selectors c commentsSelectors).map extract_number).getD 0 ∧
    (extract_product_data now c i).maker =
      (find_text_by_selectors c makerSelectors).getD "Unknown Maker" ∧
    (extract_product_data now c i).category =
      (find_text_by_selectors c categorySelectors).getD "General" ∧
    (extract_product_data now c i).launched_at = now ∧
    ((extract_product_data now c i).url = placeholderUrl i ∨
      ∃ el, c.postsAnchor = some el ∧ ∃ hr, el.href = some hr ∧ hr ≠ "" ∧
        ((extract_product_data now c i).url = hr ∨
          (extract_product_data now c i).url =
            "https://www.producthunt.com" ++ hr)) := by
  refine ⟨pyOr_getD _ _ (fun t ht => find_text_ne_empty c nameSelectors t ht),
    pyOr_getD _ _ (fun t ht => find_text_ne_empty c taglineSelectors t ht),
    optNum_map _ (fun t ht => find_text_ne_empty c votesSelectors t ht),
    optNum_map _ (fun t ht => find_text_ne_empty c commentsSelectors t ht),
    pyOr_getD _ _ (fun t ht => find_text_ne_empty c makerSelectors t ht),
    pyOr_getD _ _ (fun t ht => find_text_ne_empty c categorySelectors t ht),
    rfl, ?_⟩
  show extract_url c i = placeholderUrl i ∨ _
  cases hpa : c.postsAnchor with
  | none => left; simp [extract_url, hpa]
  | some el =>
    cases hh : el.href with
    | none => left; simp [extract_url, hpa, hh]
    | some hr =>
      by_cases hne : hr = ""
      · left
        simp [extract_url, hpa, hh, hne]
      · right
        refine ⟨el, rfl, hr, hh, hne, ?_⟩
        by_cases hs : pyStartswith hr "http" = true
        · left
          show extract_url c i = hr
          simp [extract_url, hpa, hh, hne, hs]
        · right
          show extract_url c i = "https://www.producthunt.com" ++ hr
          simp [extract_url, hpa, hh, hne, hs]

/-- Truncating to 20 does not change emptiness of a container list. -/
theorem isEmpty_take20 (cs : List Container) :
    (cs.take 20).isEmpty = cs.isEmpty := by
  cases cs with
  | nil => rfl
  | cons a l => rfl

/-- C9: the orchestrator loop processes only the first 20 located
containers — the survivor list is computed from the 20-truncated
container list and is never longer than 20, and the whole parse result
is unchanged when every container beyond the first 20 is discarded,
regardless of how the filter would treat them. -/
theorem C9_cap_twenty (now : String) (s : Nat → Nat)
    (cs primary fb : List Container) :
    extractSurvivors now cs = extractSurvivors now (cs.take 20) ∧
    (extractSurvivors now cs).length ≤ 20 ∧
    parse_productsM now s (LocateResult.found primary fb) =
      parse_productsM now s
        (LocateResult.found (primary.take 20) (fb.take 20)) := by
  have htake : ∀ l : List Container,
      extractSurvivors now l = extractSurvivors now (l.take 20) := by
    intro l
    unfold extractSurvivors
    rw [List.take_take, Nat.min_self]
  refine ⟨htake cs, extractSurvivors_length_le now cs, ?_⟩
  simp only [parse_productsM, isEmpty_take20]
  cases hpe : primary.isEmpty with
  | true =>
    simp only [if_true]
    rw [← htake fb]
  | false =>
    simp only [Bool.false_eq_true, if_false]
    rw [← htake primary]

/-- The retry loop makes no more attempts than it has fuel. -/
theorem fetchAux_attempts_le (o : Nat → AttemptOutcome) (m d : Nat) :
    ∀ fuel a, (fetchAux o m d a fuel).attemptsMade ≤ fuel := by
  intro fuel
  induction fuel with
  | zero => intro a; exact Nat.le_refl 0
  | succ n ih =>
    intro a
    unfold fetchAux
    cases o a with
    | ok lr => simp
    | fail =>
      by_cases hb : a + 1 < m
      · simp only [hb, if_true]
        exact Nat.succ_le_succ (ih (a + 1))
      · simp only [hb, if_false]
        omega

/-- C2 counterexample: with max_retries=3 and base_delay=1 and every
attempt failing, exactly 3 attempts run, the backoff sleeps are 1 and 2
— a backoff sleep of 4 time-units never occurs (no sleep at all follows
the final attempt), and the full sleep sequence 1, 1, 2, 1 is not
strictly increasing because a flat rate-limit sleep of 1 follows each
backoff sleep. -/
theorem C2_counterexample :
    (fetch_products_from_url allFail 3 1).attemptsMade = 3 ∧
    backoffSleeps (fetch_products_from_url allFail 3 1) = [1, 2] ∧
    backoffSleeps (fetch_products_from_url allFail 3 1) ≠ [1, 2, 4] ∧
    (fetch_products_from_url allFail 3 1).sleeps.map (fun sk => sk.2) =
      [1, 1, 2, 1] ∧
    4 ∉ (fetch_products_from_url allFail 3 1).sleeps.map (fun sk => sk.2) := by
  refine ⟨rfl, rfl, by decide, rfl, by decide⟩

/-- C2 (amended): Fetch-with-Retry with max_retries=3 and base_delay=1
performs at most 3 attempts; when every attempt fails it performs
exactly 3 and the backoff sleeps between failing attempts are the
strictly increasing values 1 and 2 (base_delay × 2^attempt for attempts
0 and 1; the value 4 would require a fourth attempt and never occurs),
each followed by a flat rate-limit sleep of 1. -/
theorem C2_amended_retry_backoff (o : Nat → AttemptOutcome) :
    (fetch_products_from_url o 3 1).attemptsMade ≤ 3 ∧
    ((∀ k, k < 3 → o k = AttemptOutcome.fail) →
      (fetch_products_from_url o 3 1).attemptsMade = 3 ∧
      (fetch_products_from_url o 3 1).sleeps =
        [(SleepKind.backoff, 1), (SleepKind.rateLimit, 1),
         (SleepKind.backoff, 2), (SleepKind.rateLimit, 1)] ∧
      backoffSleeps (fetch_products_from_url o 3 1) = [1, 2] ∧
      (fetch_products_from_url o 3 1).result = none) := by
  refine ⟨fetchAux_attempts_le o 3 1 3 0, ?_⟩
  intro h
  have h0 := h 0 (by omega)
  have h1 := h 1 (by omega)
  have h2 := h 2 (by omega)
  unfold fetch_products_from_url
  unfold fetchAux
  rw [h0]
  unfold fetchAux
  rw [h1]
  unfold fetchAux
  rw [h2]
  refine ⟨by norm_num, by norm_num, by rfl, by norm_num⟩

/-- C2 amended-theorem witness: the all-failures outcome stream. -/
theorem C2_amended_witness :
    (fetch_products_from_url allFail 3 1).attemptsMade ≤ 3 ∧
    backoffSleeps (fetch_products_from_url allFail 3 1) = [1, 2] :=
  ⟨(C2_amended_retry_backoff allFail).1,
    ((C2_amended_retry_backoff allFail).2 (fun _ _ => rfl)).2.2.1⟩


/-- When every attempt up to the retry bound fails, the retry loop ends
with the exception re-raised (no page is ever produced). -/
theorem fetchAux_result_allFail (o : Nat → AttemptOutcome) (m d : Nat)
    (h : ∀ k, k < m → o k = AttemptOutcome.fail) :
    ∀ fuel a, a < m → (fetchAux o m d a fuel).result = none := by
  intro fuel
  induction fuel with
  | zero => intro a _; rfl
  | succ n ih =>
    intro a ha
    unfold fetchAux
    rw [h a ha]
    by_cases hb : a + 1 < m
    · simp only [hb, if_true]
      exact ih (a + 1) hb
    · simp only [hb, if_false]

/-- The mock catalog always yields exactly ten records. -/
theorem get_mock_products_length (now : String) (s : Nat → Nat) :
    (get_mock_products now s).length = 10 := by
  rfl

/-- C3: when the fetch fails on every retry attempt the Orchestrator
returns the empty list and the Mock Data Generator is not invoked,
whereas a parse-stage failure (with the fetch succeeding) does invoke
it — the two failure modes are handled differently. -/
theorem C3_fetch_failure_empty (o : Nat → AttemptOutcome) (m d : Nat)
    (now : String) (s : Nat → Nat) :
    ((∀ k, k < m → o k = AttemptOutcome.fail) →
      scrape_daily_productsM o m d now s = ([], false)) ∧
    (1 ≤ m → o 0 = AttemptOutcome.ok LocateResult.throws →
      scrape_daily_productsM o m d now s = (get_mock_products now s, true)) := by
  constructor
  · intro h
    rcases Nat.eq_zero_or_pos m with hm | hm
    · subst hm
      rfl
    · have hres := fetchAux_result_allFail o m d h m 0 hm
      unfold scrape_daily_productsM fetch_products_from_url
      unfold fetch_products_from_url at hres
      rw [hres]
  · intro hm h0
    obtain ⟨n, rfl⟩ : ∃ n, m = n + 1 := ⟨m - 1, by omega⟩
    unfold scrape_daily_productsM fetch_products_from_url
    unfold fetchAux
    rw [h0]
    rfl

/-- C3 witness: all three attempts fail; the result is the empty list
with the mock generator unused. -/
theorem C3_witness :
    scrape_daily_productsM allFail 3 1 "t" (fun _ => 0) = ([], false) :=
  (C3_fetch_failure_empty allFail 3 1 "t" (fun _ => 0)).1 (fun _ _ => rfl)

/-- The outcome stream whose first attempt succeeds with a page on
which both container strategies find nothing. -/
def emptyPageRun : Nat → AttemptOutcome :=
  fun _ => AttemptOutcome.ok (LocateResult.found [] [])

/-- The all-zero randomness stream. -/
def zeroDraws : Nat → Nat := fun _ => 0

/-- C4: the Orchestrator's result is always a list (never an
exception): of length exactly 10 whenever the mock fallback was taken,
of length 1-20 whenever the fetch succeeded and the fallback was not
taken, and empty only in the unrecoverable-fetch-failure case. -/
theorem C4_result_shape (o : Nat → AttemptOutcome) (m d : Nat)
    (now : String) (s : Nat → Nat) :
    ((scrape_daily_productsM o m d now s).2 = true →
      (scrape_daily_productsM o m d now s).1.length = 10) ∧
    ((scrape_daily_productsM o m d now s).2 = false →
      (fetch_products_from_url o m d).result ≠ none →
      1 ≤ (scrape_daily_productsM o m d now s).1.length ∧
      (scrape_daily_productsM o m d now s).1.length ≤ 20) ∧
    ((scrape_daily_productsM o m d now s).1.length = 0 →
      scrape_daily_productsM o m d now s = ([], false) ∧
      (fetch_products_from_url o m d).result = none) := by
  cases hres : (fetch_products_from_url o m d).result with
  | none =>
    have hscrape : scrape_daily_productsM o m d now s = ([], false) := by
      unfold scrape_daily_productsM
      rw [hres]
    rw [hscrape]
    simp
  | some lr =>
    cases lr with
    | throws =>
      have hscrape : scrape_daily_productsM o m d now s =
          (get_mock_products now s, true) := by
        unfold scrape_daily_productsM
        rw [hres]
        rfl
      rw [hscrape]
      simp [get_mock_products_length]
    | found primary fb =>
      by_cases hemp :
          (extractSurvivors now
            (if primary.isEmpty then fb else primary)).isEmpty
      · have hscrape : scrape_daily_productsM o m d now s =
            (get_mock_products now s, true) := by
          unfold scrape_daily_productsM
          rw [hres]
          simp [parse_productsM, hemp]
        rw [hscrape]
        simp [get_mock_products_length]
      · have hscrape : scrape_daily_productsM o m d now s =
            (extractSurvivors now
              (if primary.isEmpty then fb else primary), false) := by
          unfold scrape_daily_productsM
          rw [hres]
          simp [parse_productsM, hemp]
        have hlen1 : 1 ≤ (extractSurvivors now
            (if primary.isEmpty then fb else primary)).length := by
          rw [List.isEmpty_iff] at hemp
          have := List.length_pos.mpr hemp
          omega
        rw [hscrape]
        refine ⟨by simp, ?_, ?_⟩
        · intro _ _
          exact ⟨hlen1, extractSurvivors_length_le now _⟩
        · intro hlen
          have hz : (extractSurvivors now
              (if primary.isEmpty then fb else primary)).length = 0 := hlen
          omega

/-- C4 witness: a run whose fetch succeeds on a page with no containers
takes the fallback and returns exactly 10 records. -/
theorem C4_witness :
    (scrape_daily_productsM emptyPageRun 3 1 "t" zeroDraws).2 = true ∧
    (scrape_daily_productsM emptyPageRun 3 1 "t" zeroDraws).1.length = 10 :=
  ⟨rfl, (C4_result_shape emptyPageRun 3 1 "t" zeroDraws).1 rfl⟩

/-- The modelled randint always lands in its inclusive range. -/
theorem randint_range (v lo hi : Nat) (h : lo ≤ hi) :
    lo ≤ randint v lo hi ∧ randint v lo hi ≤ hi := by
  unfold randint
  constructor
  · omega
  · have hm : v % (hi + 1 - lo) < hi + 1 - lo := Nat.mod_lt _ (by omega)
    omega

/-- Entry i of the generated mock list carries the catalog's fixed
identity fields, the derived URL, the generation timestamp, and
vote/comment counts inside that entry's inclusive ranges. -/
def mockEntryOk (now : String) (s : Nat → Nat) (i : Nat) : Prop :=
  ((get_mock_products now s).getD i defaultProduct).name =
    (mockCatalog.getD i defaultEntry).name ∧
  ((get_mock_products now s).getD i defaultProduct).tagline =
    (mockCatalog.getD i defaultEntry).tagline ∧
  ((get_mock_products now s).getD i defaultProduct).maker =
    (mockCatalog.getD i defaultEntry).maker ∧
  ((get_mock_products now s).getD i defaultProduct).category =
    (mockCatalog.getD i defaultEntry).category ∧
  ((get_mock_products now s).getD i defaultProduct).url =
    mockUrl (mockCatalog.getD i defaultEntry).name ∧
  ((get_mock_products now s).getD i defaultProduct).launched_at = now ∧
  (mockCatalog.getD i defaultEntry).vlo ≤
    ((get_mock_products now s).getD i defaultProduct).votes ∧
  ((get_mock_products now s).getD i defaultProduct).votes ≤
    (mockCatalog.getD i defaultEntry).vhi ∧
  (mockCatalog.getD i defaultEntry).clo ≤
    ((get_mock_products now s).getD i defaultProduct).comments ∧
  ((get_mock_products now s).getD i defaultProduct).comments ≤
    (mockCatalog.getD i defaultEntry).chi

/-- C5: whenever no meaningful record survives filtering (including the
zero-containers case) or an exception escapes the parse stage, the
Orchestrator returns the Mock Data Generator's fixed 10-entry catalog,
with deterministic identity fields per entry and votes/comments inside
each entry's documented inclusive range — in particular entry 0 uses
votes in [50,300] and entry 1 votes in [80,250]. -/
theorem C5_fallback_mock_catalog (now : String) (s : Nat → Nat)
    (lr : LocateResult)
    (h : lr = LocateResult.throws ∨
      extractSurvivors now (locatedContainers lr) = []) :
    parse_productsM now s lr = (get_mock_products now s, true) ∧
    (get_mock_products now s).length = 10 ∧
    (∀ i, i < 10 → mockEntryOk now s i) ∧
    (mockCatalog.getD 0 defaultEntry).vlo = 50 ∧
    (mockCatalog.getD 0 defaultEntry).vhi = 300 ∧
    (mockCatalog.getD 1 defaultEntry).vlo = 80 ∧
    (mockCatalog.getD 1 defaultEntry).vhi = 250 := by
  refine ⟨?_, get_mock_products_length now s, ?_, rfl, rfl, rfl, rfl⟩
  · rcases h with h | h
    · subst h
      rfl
    · cases lr with
      | throws => rfl
      | found primary fb =>
        have hloc : locatedContainers (LocateResult.found primary fb) =
            if primary.isEmpty then fb else primary := rfl
        rw [hloc] at h
        simp [parse_productsM, h]
  · intro i hi
    interval_cases i
    · exact ⟨rfl, rfl, rfl, rfl, rfl, rfl,
        (randint_range (s 0) 50 300 (by omega)).1,
        (randint_range (s 0) 50 300 (by omega)).2,
        (randint_range (s 1) 5 45 (by omega)).1,
        (randint_range (s 1) 5 45 (by omega)).2⟩
    · exact ⟨rfl, rfl, rfl, rfl, rfl, rfl,
        (randint_range (s 2) 80 250 (by omega)).1,
        (randint_range (s 2) 80 250 (by omega)).2,
        (randint_range (s 3) 10 35 (by omega)).1,
        (randint_range (s 3) 10 35 (by omega)).2⟩
    · exact ⟨rfl, rfl, rfl, rfl, rfl, rfl,
        (randint_range (s 4) 120 280 (by omega)).1,
        (randint_range (s 4) 120 280 (by omega)).2,
        (randint_range (s 5) 15 40 (by omega)).1,
        (randint_range (s 5) 15 40 (by omega)).2⟩
    · exact ⟨rfl, rfl, rfl, rfl, rfl, rfl,
        (randint_range (s 6) 90 220 (by omega)).1,
        (randint_range (s 6) 90 220 (by omega)).2,
        (randint_range (s 7) 8 30 (by omega)).1,
        (randint_range (s 7) 8 30 (by omega)).2⟩
    · exact ⟨rfl, rfl, rfl, rfl, rfl, rfl,
        (randint_range (s 8) 60 180 (by omega)).1,
        (randint_range (s 8) 60 180 (by omega)).2,
        (randint_range (s 9) 12 25 (by omega)).1,
        (randint_range (s 9) 12 25 (by omega)).2⟩
    · exact ⟨rfl, rfl, rfl, rfl, rfl, rfl,
        (randint_range (s 10) 70 200 (by omega)).1,
        (randint_range (s 10) 70 200 (by omega)).2,
        (randint_range (s 11) 7 28 (by omega)).1,
        (randint_range (s 11) 7 28 (by omega)).2⟩
    · exact ⟨rfl, rfl, rfl, rfl, rfl, rfl,
        (randint_range (s 12) 85 160 (by omega)).1,
        (randint_range (s 12) 85 160 (by omega)).2,
        (randint_range (s 13) 9 22 (by omega)).1,
        (randint_range (s 13) 9 22 (by omega)).2⟩
    · exact ⟨rfl, rfl, rfl, rfl, rfl, rfl,
        (randint_range (s 14) 95 240 (by omega)).1,
        (randint_range (s 14) 95 240 (by omega)).2,
        (randint_range (s 15) 11 33 (by omega)).1,
        (randint_range (s 15) 11 33 (by omega)).2⟩
    · exact ⟨rfl, rfl, rfl, rfl, rfl, rfl,
        (randint_range (s 16) 110 190 (by omega)).1,
        (randint_range (s 16) 110 190 (by omega)).2,
        (randint_range (s 17) 13 27 (by omega)).1,
        (randint_range (s 17) 13 27 (by omega)).2⟩
    · exact ⟨rfl, rfl, rfl, rfl, rfl, rfl,
        (randint_range (s 18) 75 210 (by omega)).1,
        (randint_range (s 18) 75 210 (by omega)).2,
        (randint_range (s 19) 6 31 (by omega)).1,
        (randint_range (s 19) 6 31 (by omega)).2⟩

/-- C5 witness: a successfully fetched page on which both container
strategies find nothing triggers the mock fallback. -/
theorem C5_witness :
    parse_productsM "t" zeroDraws (LocateResult.found [] []) =
      (get_mock_products "t" zeroDraws, true) ∧
    (get_mock_products "t" zeroDraws).length = 10 :=
  ⟨(C5_fallback_mock_catalog "t" zeroDraws
      (LocateResult.found [] []) (Or.inr rfl)).1,
    (C5_fallback_mock_catalog "t" zeroDraws
      (LocateResult.found [] []) (Or.inr rfl)).2.1⟩
